import Mathlib

/-
  Verification of the DS1302 real-time-clock driver
  (components/ds1302/ds1302.c) against its natural-language design
  document.

  The driver is embedded shallowly at the granularity of the bus
  primitives the C code is written with: `prepare`, `write_byte`,
  `read_byte`, `chip_disable`, and the critical-region macros
  PORT_ENTER_CRITICAL / PORT_EXIT_CRITICAL.  Each fallible primitive
  consumes one answer from an environment oracle `env : Nat → Bool`
  (whether the underlying GPIO calls of that primitive succeed), so a
  theorem quantified over `env` covers every failure pattern the C
  control flow can encounter.  Machine bytes are `Nat` reduced `% 256`
  exactly where the C code's `uint8_t` conversions truncate.

  The chip itself is an external device (not part of the repository's
  code); its register map and burst behaviour are modelled from the
  design document (§3 "Register Address", §4.4 "Burst Access",
  glossary "Burst mode").
-/

inductive EspErr where
  | ESP_OK
  | ESP_ERR_INVALID_ARG
  | ESP_FAIL
deriving DecidableEq, Repr

inductive GpioMode where
  | input
  | output
deriving DecidableEq, Repr

/-- `ds1302_t`: the three GPIO lines plus the cached clock-halt flag `ch`. -/
structure Dev where
  ce_pin : Nat
  io_pin : Nat
  sclk_pin : Nat
  ch : Bool
deriving DecidableEq, Repr

/-- `struct tm` restricted to the fields the driver touches.  Fields are
`Int` because the C fields are `int` and the decoder produces values such
as `bcd2dec(...) - 1`. -/
@[ext]
structure Tm where
  tm_sec : Int
  tm_min : Int
  tm_hour : Int
  tm_mday : Int
  tm_mon : Int
  tm_wday : Int
  tm_year : Int
deriving DecidableEq, Repr

/-- Modelled from the spec: the DS1302 chip's storage — the 8-byte clock
register block (index 7 being the write-protect/control register) and the
fixed-size scratch memory.  The chip is an external collaborator; only
the driver is repository code. -/
structure Chip where
  clock : Nat → Nat
  ram : Nat → Nat

/-- Execution state threaded through the embedded driver: the chip's
storage, the chip's latched command byte and intra-burst index, the
chip-enable line, the data-line direction, counters of
PORT_ENTER_CRITICAL / PORT_EXIT_CRITICAL executions, the oracle cursor
`step`, and the list of bytes transmitted on the bus so far. -/
structure St where
  chip : Chip
  cmd : Option Nat
  idx : Nat
  ce : Bool
  ioDir : GpioMode
  enters : Nat
  exits : Nat
  step : Nat
  sent : List Nat

-- Constants from ds1302.c lines 24-40.
def CH_REG : Nat := 0x80
def WP_REG : Nat := 0x8e
def CH_BIT : Nat := 1 <<< 7
def WP_BIT : Nat := 1 <<< 7
def HOUR12_BIT : Nat := 1 <<< 7
def PM_BIT : Nat := 1 <<< 5
/-- `(uint8_t)(~CH_BIT)`: complement within one byte. -/
def CH_MASK : Nat := 0xff ^^^ CH_BIT
/-- `(uint8_t)(~WP_BIT)`: complement within one byte. -/
def WP_MASK : Nat := 0xff ^^^ WP_BIT
def CLOCK_BURST : Nat := 0xbe
def RAM_BURST : Nat := 0xfe
def SECONDS_MASK : Nat := 0x7f
def HOUR12_MASK : Nat := 0x1f
def HOUR24_MASK : Nat := 0x3f

/-- Modelled from the spec: `DS1302_RAM_SIZE` is defined in the header
`ds1302.h`, which is not among the provided sources; §7 of the design
document fixes the scratch-memory capacity at 31 bytes. -/
def DS1302_RAM_SIZE : Nat := 31

/-- `bcd2dec` (ds1302.c line 59): `(val >> 4) * 10 + (val & 0x0f)`,
returned as `uint8_t`. -/
def bcd2dec (val : Nat) : Nat := ((val >>> 4) * 10 + (val &&& 0x0f)) % 256

/-- `dec2bcd` (ds1302.c line 64): `((val / 10) << 4) + (val % 10)`,
returned as `uint8_t`. -/
def dec2bcd (val : Nat) : Nat := (((val / 10) <<< 4) + val % 10) % 256

/-- C conversion `int → uint8_t` (reduction modulo 256). -/
def u8 (x : Int) : Nat := (x % 256).toNat

/-- Modelled from the spec: which storage cell a latched command byte
addresses for its `idx`-th data byte — the two burst sentinels walk the
clock block / scratch memory from the start, a single-register command
addresses one cell (clock registers live at even addresses
0x80..0x8e, scratch memory at 0xc0..0xfc).  `cmd` is the write-form
(even) command byte.  Reading this cell models the chip shifting the
byte out; writing models the chip latching the byte in. -/
def chipRead (c : Chip) (cmd idx : Nat) : Nat :=
  let wa := cmd - 1
  if wa = CLOCK_BURST then (if idx < 8 then c.clock idx else 0)
  else if wa = RAM_BURST then (if idx < DS1302_RAM_SIZE then c.ram idx else 0)
  else if 0x80 ≤ wa ∧ wa ≤ 0x8e then (if idx = 0 then c.clock ((wa - 0x80) / 2) else 0)
  else if 0xc0 ≤ wa ∧ wa ≤ 0xfc then (if idx = 0 then c.ram ((wa - 0xc0) / 2) else 0)
  else 0

/-- Modelled from the spec: the chip latching data byte `b` as the
`idx`-th byte of write command `cmd` (see `chipRead`). -/
def chipWrite (c : Chip) (cmd idx b : Nat) : Chip :=
  if cmd = CLOCK_BURST then
    (if idx < 8 then { c with clock := fun j => if j = idx then b else c.clock j } else c)
  else if cmd = RAM_BURST then
    (if idx < DS1302_RAM_SIZE then { c with ram := fun j => if j = idx then b else c.ram j } else c)
  else if 0x80 ≤ cmd ∧ cmd ≤ 0x8e then
    (if idx = 0 then { c with clock := fun j => if j = (cmd - 0x80) / 2 then b else c.clock j } else c)
  else if 0xc0 ≤ cmd ∧ cmd ≤ 0xfc then
    (if idx = 0 then { c with ram := fun j => if j = (cmd - 0xc0) / 2 then b else c.ram j } else c)
  else c

/-- `PORT_ENTER_CRITICAL`. -/
def portEnter (s : St) : St := { s with enters := s.enters + 1 }

/-- `PORT_EXIT_CRITICAL`. -/
def portExit (s : St) : St := { s with exits := s.exits + 1 }

/-- `prepare` (ds1302.c line 81): set data-line direction, drive the
clock low, enable the chip (with its settle delay).  Fallible through
its GPIO calls: consumes one oracle answer. -/
def prepare (env : Nat → Bool) (mode : GpioMode) (s : St) : EspErr × St :=
  let s' := { s with step := s.step + 1 }
  if env s.step then (EspErr.ESP_OK, { s' with ioDir := mode, ce := true })
  else (EspErr.ESP_FAIL, s')

/-- `chip_disable` (ds1302.c line 76): drive chip-enable low, which ends
the transaction and clears the chip's latched command. -/
def chip_disable (env : Nat → Bool) (s : St) : EspErr × St :=
  let s' := { s with step := s.step + 1 }
  if env s.step then (EspErr.ESP_OK, { s' with ce := false, cmd := none, idx := 0 })
  else (EspErr.ESP_FAIL, s')

/-- `write_byte` (ds1302.c line 97): shift one byte out, LSB first.  The
first byte after chip enable is latched by the chip as the command byte;
subsequent bytes of an (even) write command are stored. -/
def write_byte (env : Nat → Bool) (b : Nat) (s : St) : EspErr × St :=
  let s' := { s with step := s.step + 1 }
  if env s.step then
    match s.cmd with
    | none =>
        (EspErr.ESP_OK, { s' with cmd := some (b % 256), idx := 0, sent := s.sent ++ [b % 256] })
    | some c =>
        if c % 2 = 0 then
          (EspErr.ESP_OK,
            { s' with chip := chipWrite s.chip c s.idx (b % 256), idx := s.idx + 1,
                      sent := s.sent ++ [b % 256] })
        else (EspErr.ESP_OK, { s' with idx := s.idx + 1, sent := s.sent ++ [b % 256] })
  else (EspErr.ESP_FAIL, s')

/-- `read_byte` (ds1302.c line 107): shift one byte in, LSB first; the
chip outputs the next byte of the latched (odd) read command. -/
def read_byte (env : Nat → Bool) (s : St) : EspErr × Nat × St :=
  let s' := { s with step := s.step + 1 }
  if env s.step then
    match s.cmd with
    | some c =>
        if c % 2 = 1 then (EspErr.ESP_OK, chipRead s.chip c s.idx % 256, { s' with idx := s.idx + 1 })
        else (EspErr.ESP_OK, 0, s')
    | none => (EspErr.ESP_OK, 0, s')
  else (EspErr.ESP_FAIL, 0, s')

/-- `read_register` (ds1302.c lines 118-127).  `CHECK_MUX` exits the
critical region before propagating a failure. -/
def read_register (env : Nat → Bool) (dev : Dev) (reg : Nat) (s : St) : EspErr × Nat × St :=
  let s0 := portEnter s
  let p1 := prepare env GpioMode.output s0
  if p1.1 ≠ EspErr.ESP_OK then (p1.1, 0, portExit p1.2) else
  let p2 := write_byte env (reg ||| 0x01) p1.2
  if p2.1 ≠ EspErr.ESP_OK then (p2.1, 0, portExit p2.2) else
  let p3 := prepare env GpioMode.input p2.2
  if p3.1 ≠ EspErr.ESP_OK then (p3.1, 0, portExit p3.2) else
  let p4 := read_byte env p3.2
  if p4.1 ≠ EspErr.ESP_OK then (p4.1, 0, portExit p4.2.2) else
  let s1 := portExit p4.2.2
  let p5 := chip_disable env s1
  (p5.1, p4.2.1, p5.2)

/-- `write_register` (ds1302.c lines 129-137).  Line 135 of the source
executes `PORT_ENTER_CRITICAL` (not `PORT_EXIT_CRITICAL`) before the
final `chip_disable`; the embedding reproduces this faithfully. -/
def write_register (env : Nat → Bool) (dev : Dev) (reg val : Nat) (s : St) : EspErr × St :=
  let s0 := portEnter s
  let p1 := prepare env GpioMode.output s0
  if p1.1 ≠ EspErr.ESP_OK then (p1.1, portExit p1.2) else
  let p2 := write_byte env reg p1.2
  if p2.1 ≠ EspErr.ESP_OK then (p2.1, portExit p2.2) else
  let p3 := write_byte env val p2.2
  if p3.1 ≠ EspErr.ESP_OK then (p3.1, portExit p3.2) else
  let s1 := portEnter p3.2
  chip_disable env s1

/-- The read loop of `burst_read` (ds1302.c lines 145-146). -/
def burst_read_loop (env : Nat → Bool) (len : Nat) (acc : List Nat) (s : St) :
    EspErr × List Nat × St :=
  match len with
  | 0 => (EspErr.ESP_OK, acc, s)
  | n + 1 =>
      let p := read_byte env s
      if p.1 ≠ EspErr.ESP_OK then (p.1, acc, p.2.2)
      else burst_read_loop env n (acc ++ [p.2.1]) p.2.2

/-- `burst_read` (ds1302.c lines 139-149). -/
def burst_read (env : Nat → Bool) (dev : Dev) (reg len : Nat) (s : St) :
    EspErr × List Nat × St :=
  let s0 := portEnter s
  let p1 := prepare env GpioMode.output s0
  if p1.1 ≠ EspErr.ESP_OK then (p1.1, [], portExit p1.2) else
  let p2 := write_byte env (reg ||| 0x01) p1.2
  if p2.1 ≠ EspErr.ESP_OK then (p2.1, [], portExit p2.2) else
  let p3 := prepare env GpioMode.input p2.2
  if p3.1 ≠ EspErr.ESP_OK then (p3.1, [], portExit p3.2) else
  let p4 := burst_read_loop env len [] p3.2
  if p4.1 ≠ EspErr.ESP_OK then (p4.1, p4.2.1, portExit p4.2.2) else
  let s1 := portExit p4.2.2
  let p5 := chip_disable env s1
  (p5.1, p4.2.1, p5.2)

/-- The write loop of `burst_write` (ds1302.c lines 156-157). -/
def burst_write_loop (env : Nat → Bool) (bytes : List Nat) (s : St) : EspErr × St :=
  match bytes with
  | [] => (EspErr.ESP_OK, s)
  | b :: rest =>
      let p := write_byte env b s
      if p.1 ≠ EspErr.ESP_OK then (p.1, p.2)
      else burst_write_loop env rest p.2

/-- `burst_write` (ds1302.c lines 151-160); `src`/`len` mirror the C
pointer/length pair. -/
def burst_write (env : Nat → Bool) (dev : Dev) (reg : Nat) (src : List Nat) (len : Nat)
    (s : St) : EspErr × St :=
  let s0 := portEnter s
  let p1 := prepare env GpioMode.output s0
  if p1.1 ≠ EspErr.ESP_OK then (p1.1, portExit p1.2) else
  let p2 := write_byte env reg p1.2
  if p2.1 ≠ EspErr.ESP_OK then (p2.1, portExit p2.2) else
  let p3 := burst_write_loop env (src.take len) p2.2
  if p3.1 ≠ EspErr.ESP_OK then (p3.1, portExit p3.2) else
  let s1 := portExit p3.2
  chip_disable env s1

/-- `update_register` (ds1302.c lines 162-167). -/
def update_register (env : Nat → Bool) (dev : Dev) (reg mask val : Nat) (s : St) :
    EspErr × St :=
  let p := read_register env dev reg s
  if p.1 ≠ EspErr.ESP_OK then (p.1, p.2.2)
  else write_register env dev reg ((p.2.1 &&& mask) ||| val) p.2.2

/-- `gpio_config` as called by `ds1302_init` (ds1302.c line 182): one
fallible platform call, no bus transaction. -/
def gpio_config (env : Nat → Bool) (s : St) : EspErr × St :=
  let s' := { s with step := s.step + 1 }
  if env s.step then (EspErr.ESP_OK, s') else (EspErr.ESP_FAIL, s')

/-- `ds1302_is_running` (ds1302.c lines 201-212).  `running` models the
out-pointer being non-null; the updated handle is returned because the C
code mutates `dev->ch` through the pointer. -/
def ds1302_is_running (env : Nat → Bool) (dev : Option Dev) (running : Bool) (s : St) :
    EspErr × Option Dev × Bool × St :=
  match dev with
  | none => (EspErr.ESP_ERR_INVALID_ARG, none, false, s)
  | some d =>
      if !running then (EspErr.ESP_ERR_INVALID_ARG, some d, false, s) else
      let p := read_register env d CH_REG s
      if p.1 ≠ EspErr.ESP_OK then (p.1, some d, false, p.2.2) else
      let run : Bool := p.2.1 &&& CH_BIT == 0
      (EspErr.ESP_OK, some { d with ch := !run }, run, p.2.2)

/-- `ds1302_init` (ds1302.c lines 171-189). -/
def ds1302_init (env : Nat → Bool) (dev : Option Dev) (s : St) : EspErr × Option Dev × St :=
  match dev with
  | none => (EspErr.ESP_ERR_INVALID_ARG, none, s)
  | some d =>
      let p0 := gpio_config env s
      if p0.1 ≠ EspErr.ESP_OK then (p0.1, some d, p0.2) else
      let p1 := ds1302_is_running env (some d) true p0.2
      if p1.1 ≠ EspErr.ESP_OK then (p1.1, p1.2.1, p1.2.2.2) else
      match p1.2.1 with
      | some d1 => (EspErr.ESP_OK, some { d1 with ch := !p1.2.2.1 }, p1.2.2.2)
      | none => (EspErr.ESP_OK, none, p1.2.2.2)

/-- `ds1302_start` (ds1302.c lines 191-199). -/
def ds1302_start (env : Nat → Bool) (dev : Option Dev) (start : Bool) (s : St) :
    EspErr × Option Dev × St :=
  match dev with
  | none => (EspErr.ESP_ERR_INVALID_ARG, none, s)
  | some d =>
      let p := update_register env d CH_REG CH_MASK (if start then 0 else CH_BIT) s
      if p.1 ≠ EspErr.ESP_OK then (p.1, some d, p.2)
      else (EspErr.ESP_OK, some { d with ch := !start }, p.2)

/-- `ds1302_get_time` (ds1302.c lines 233-257).  `timeGiven` models the
out-pointer being non-null. -/
def ds1302_get_time (env : Nat → Bool) (dev : Option Dev) (timeGiven : Bool) (s : St) :
    EspErr × Option Tm × St :=
  match dev with
  | none => (EspErr.ESP_ERR_INVALID_ARG, none, s)
  | some d =>
      if !timeGiven then (EspErr.ESP_ERR_INVALID_ARG, none, s) else
      let p := burst_read env d CLOCK_BURST 7 s
      if p.1 ≠ EspErr.ESP_OK then (p.1, none, p.2.2) else
      let buf := p.2.1
      let t : Tm := {
        tm_sec := (bcd2dec (buf.getD 0 0 &&& SECONDS_MASK) : Int)
        tm_min := (bcd2dec (buf.getD 1 0) : Int)
        tm_hour :=
          if buf.getD 2 0 &&& HOUR12_BIT ≠ 0 then
            (bcd2dec (buf.getD 2 0 &&& HOUR12_MASK) : Int) - 1 +
              (if buf.getD 2 0 &&& PM_BIT ≠ 0 then 12 else 0)
          else (bcd2dec (buf.getD 2 0 &&& HOUR24_MASK) : Int)
        tm_mday := (bcd2dec (buf.getD 3 0) : Int)
        tm_mon := (bcd2dec (buf.getD 4 0) : Int) - 1
        tm_wday := (bcd2dec (buf.getD 5 0) : Int) - 1
        tm_year := (bcd2dec (buf.getD 6 0) : Int) + 2000 }
      (EspErr.ESP_OK, some t, p.2.2)

/-- The 8-byte clock-burst buffer built by `ds1302_set_time`
(ds1302.c lines 264-273). -/
def set_time_buf (d : Dev) (t : Tm) : List Nat :=
  [ dec2bcd (u8 t.tm_sec) ||| (if d.ch then CH_BIT else 0),
    dec2bcd (u8 t.tm_min),
    dec2bcd (u8 t.tm_hour),
    dec2bcd (u8 t.tm_mday),
    dec2bcd (u8 (t.tm_mon + 1)),
    dec2bcd (u8 (t.tm_wday + 1)),
    dec2bcd (u8 (t.tm_year - 2000)),
    0 ]

/-- `ds1302_set_time` (ds1302.c lines 259-275). -/
def ds1302_set_time (env : Nat → Bool) (dev : Option Dev) (time : Option Tm) (s : St) :
    EspErr × St :=
  match dev with
  | none => (EspErr.ESP_ERR_INVALID_ARG, s)
  | some d =>
      match time with
      | none => (EspErr.ESP_ERR_INVALID_ARG, s)
      | some t => burst_write env d CLOCK_BURST (set_time_buf d t) 8 s

/-- `ds1302_read_sram` (ds1302.c lines 277-285).  `bufGiven` models the
destination pointer being non-null; the bytes read are returned. -/
def ds1302_read_sram (env : Nat → Bool) (dev : Option Dev) (offset : Nat) (bufGiven : Bool)
    (len : Nat) (s : St) : EspErr × List Nat × St :=
  match dev with
  | none => (EspErr.ESP_ERR_INVALID_ARG, [], s)
  | some d =>
      if !bufGiven then (EspErr.ESP_ERR_INVALID_ARG, [], s) else
      if len = 0 then (EspErr.ESP_ERR_INVALID_ARG, [], s) else
      if ¬ (offset + len ≤ DS1302_RAM_SIZE) then (EspErr.ESP_ERR_INVALID_ARG, [], s) else
      burst_read env d RAM_BURST len s

/-- `ds1302_write_sram` (ds1302.c lines 287-295). -/
def ds1302_write_sram (env : Nat → Bool) (dev : Option Dev) (offset : Nat)
    (buf : Option (List Nat)) (len : Nat) (s : St) : EspErr × St :=
  match dev with
  | none => (EspErr.ESP_ERR_INVALID_ARG, s)
  | some d =>
      match buf with
      | none => (EspErr.ESP_ERR_INVALID_ARG, s)
      | some bytes =>
          if len = 0 then (EspErr.ESP_ERR_INVALID_ARG, s) else
          if ¬ (offset + len ≤ DS1302_RAM_SIZE) then (EspErr.ESP_ERR_INVALID_ARG, s) else
          burst_write env d RAM_BURST bytes len s

/-- `ds1302_set_write_protect` (ds1302.c lines 214-219). -/
def ds1302_set_write_protect (env : Nat → Bool) (dev : Option Dev) (wp : Bool) (s : St) :
    EspErr × St :=
  match dev with
  | none => (EspErr.ESP_ERR_INVALID_ARG, s)
  | some d => update_register env d WP_REG WP_MASK (if wp then WP_BIT else 0) s

/-- `ds1302_get_write_protect` (ds1302.c lines 221-231).  `wpGiven`
models the out-pointer being non-null; the flag read is returned. -/
def ds1302_get_write_protect (env : Nat → Bool) (dev : Option Dev) (wpGiven : Bool) (s : St) :
    EspErr × Bool × St :=
  match dev with
  | none => (EspErr.ESP_ERR_INVALID_ARG, false, s)
  | some d =>
      if !wpGiven then (EspErr.ESP_ERR_INVALID_ARG, false, s) else
      let p := read_register env d WP_REG s
      if p.1 ≠ EspErr.ESP_OK then (p.1, false, p.2.2) else
      (EspErr.ESP_OK, (p.2.1 &&& WP_BIT != 0), p.2.2)

/-- The environment in which every GPIO operation succeeds. -/
def envOk : Nat → Bool := fun _ => true

/-- A chip whose storage is all zero. -/
def chip0 : Chip := { clock := fun _ => 0, ram := fun _ => 0 }

/-- An idle initial state: no latched command, chip disabled, empty
transmission log. -/
def st0 : St :=
  { chip := chip0, cmd := none, idx := 0, ce := false, ioDir := GpioMode.output,
    enters := 0, exits := 0, step := 0, sent := [] }

/-- A concrete device handle. -/
def dev0 : Dev := { ce_pin := 4, io_pin := 5, sclk_pin := 6, ch := false }

/-- The first byte transmitted on the bus by `read_register` (its
address-phase command byte), read off the transmission log. -/
def read_cmd_byte (reg : Nat) : Nat :=
  ((read_register envOk dev0 reg st0).2.2.sent).getD 0 0

/-- The first byte transmitted on the bus by `write_register` (its
address-phase command byte), read off the transmission log. -/
def write_cmd_byte (reg : Nat) : Nat :=
  ((write_register envOk dev0 reg 0 st0).2.sent).getD 0 0

/-- A state whose chip holds raw byte `b` in the hour register
(clock-block index 2) and zero elsewhere. -/
def stHour (b : Nat) : St :=
  { st0 with chip := { clock := fun i => if i = 2 then b else 0, ram := fun _ => 0 } }

/-- The hour field produced by running the driver's `ds1302_get_time` on
a chip whose raw hour byte is `b`. -/
def hour_decoded (b : Nat) : Int :=
  match (ds1302_get_time envOk (some dev0) true (stHour b)).2.1 with
  | some t => t.tm_hour
  | none => -1000

/-- Refinement reference, written from the spec's words (§4.5): if the
hour byte's top bit is set the chip is in 12-hour mode — decode the
lower 5 bits as BCD, subtract 1, and if the next bit above them (the PM
indicator, bit 5) is set, add 12; otherwise decode the lower 6 bits as
24-hour BCD directly. -/
def spec_hour_decode (b : Nat) : Int :=
  if b &&& HOUR12_BIT ≠ 0 then
    (bcd2dec (b &&& HOUR12_MASK) : Int) - 1 + (if b &&& PM_BIT ≠ 0 then 12 else 0)
  else (bcd2dec (b &&& HOUR24_MASK) : Int)

/-- A concrete in-range time record used by witnesses. -/
def tW : Tm :=
  { tm_sec := 30, tm_min := 45, tm_hour := 23, tm_mday := 15, tm_mon := 6,
    tm_wday := 3, tm_year := 2021 }

-- ===================================================================
-- Helper lemmas
-- ===================================================================

theorem prepare_counters (env : Nat → Bool) (m : GpioMode) (s : St) :
    (prepare env m s).2.enters = s.enters ∧ (prepare env m s).2.exits = s.exits := by
  simp [prepare]; split <;> simp

theorem chip_disable_counters (env : Nat → Bool) (s : St) :
    (chip_disable env s).2.enters = s.enters ∧ (chip_disable env s).2.exits = s.exits := by
  simp [chip_disable]; split <;> simp

theorem write_byte_counters (env : Nat → Bool) (b : Nat) (s : St) :
    (write_byte env b s).2.enters = s.enters ∧ (write_byte env b s).2.exits = s.exits := by
  cases h : s.cmd <;> simp [write_byte, h] <;> split <;> try split
  all_goals simp

theorem read_byte_counters (env : Nat → Bool) (s : St) :
    (read_byte env s).2.2.enters = s.enters ∧ (read_byte env s).2.2.exits = s.exits := by
  cases h : s.cmd <;> simp [read_byte, h] <;> split <;> try split
  all_goals simp

theorem read_register_balanced (env : Nat → Bool) (d : Dev) (reg : Nat) (s : St) :
    (read_register env d reg s).2.2.enters = s.enters + 1 ∧
    (read_register env d reg s).2.2.exits = s.exits + 1 := by
  simp only [read_register]
  split_ifs <;>
    simp [portEnter, portExit, prepare_counters, write_byte_counters, read_byte_counters,
      chip_disable_counters]

theorem burst_read_loop_counters (env : Nat → Bool) (len : Nat) :
    ∀ acc s, (burst_read_loop env len acc s).2.2.enters = s.enters ∧
      (burst_read_loop env len acc s).2.2.exits = s.exits := by
  induction len with
  | zero => intro acc s; simp [burst_read_loop]
  | succ n ih =>
      intro acc s
      simp only [burst_read_loop]
      split
      · simp [read_byte_counters]
      · simp [ih, read_byte_counters]

theorem burst_write_loop_counters (env : Nat → Bool) (bytes : List Nat) :
    ∀ s, (burst_write_loop env bytes s).2.enters = s.enters ∧
      (burst_write_loop env bytes s).2.exits = s.exits := by
  induction bytes with
  | nil => intro s; simp [burst_write_loop]
  | cons b rest ih =>
      intro s
      simp only [burst_write_loop]
      split
      · simp [write_byte_counters]
      · simp [ih, write_byte_counters]

theorem burst_read_balanced (env : Nat → Bool) (d : Dev) (reg len : Nat) (s : St) :
    (burst_read env d reg len s).2.2.enters = s.enters + 1 ∧
    (burst_read env d reg len s).2.2.exits = s.exits + 1 := by
  simp only [burst_read]
  split_ifs <;>
    simp [portEnter, portExit, prepare_counters, write_byte_counters,
      burst_read_loop_counters, chip_disable_counters]

theorem burst_write_balanced (env : Nat → Bool) (d : Dev) (reg : Nat) (src : List Nat)
    (len : Nat) (s : St) :
    (burst_write env d reg src len s).2.enters = s.enters + 1 ∧
    (burst_write env d reg src len s).2.exits = s.exits + 1 := by
  simp only [burst_write]
  split_ifs <;>
    simp [portEnter, portExit, prepare_counters, write_byte_counters,
      burst_write_loop_counters, chip_disable_counters]

set_option maxRecDepth 4096 in
theorem orOne_facts : ∀ r : Fin 256, (r : Nat) % 2 = 0 →
    ((r : Nat) ||| 1) % 256 = (r : Nat) ||| 1 ∧ ((r : Nat) ||| 1) % 2 = 1 ∧
    ((r : Nat) ||| 1) ^^^ (r : Nat) = 1 ∧ ((r : Nat) ||| 1) - 1 = (r : Nat) := by decide

theorem sec_round_fin : ∀ v : Fin 60, ∀ b : Bool,
    bcd2dec ((dec2bcd v.val ||| (if b then 128 else 0)) % 256 &&& 127) = v.val ∧
    (dec2bcd v.val ||| (if b then 128 else 0)) % 256 &&& 128 = (if b then 128 else 0) := by
  decide

theorem hour_enc_fin : ∀ v : Fin 24,
    dec2bcd v.val % 256 &&& 128 = 0 ∧ bcd2dec (dec2bcd v.val % 256 &&& 63) = v.val := by decide

theorem plain_round_fin : ∀ v : Fin 100, bcd2dec (dec2bcd v.val % 256) = v.val := by decide

theorem sec_round (v : Nat) (hv : v < 60) (b : Bool) :
    bcd2dec ((dec2bcd v ||| (if b then CH_BIT else 0)) % 256 &&& SECONDS_MASK) = v ∧
    (dec2bcd v ||| (if b then CH_BIT else 0)) % 256 &&& CH_BIT = (if b then CH_BIT else 0) := by
  have := sec_round_fin ⟨v, hv⟩ b
  simpa [CH_BIT, SECONDS_MASK] using this

theorem hour_enc (v : Nat) (hv : v < 24) :
    dec2bcd v % 256 &&& HOUR12_BIT = 0 ∧ bcd2dec (dec2bcd v % 256 &&& HOUR24_MASK) = v := by
  have := hour_enc_fin ⟨v, hv⟩
  simpa [HOUR12_BIT, HOUR24_MASK] using this

theorem plain_round (v : Nat) (hv : v ≤ 99) : bcd2dec (dec2bcd v % 256) = v := by
  have := plain_round_fin ⟨v, by omega⟩
  simpa using this

theorem u8_small (x : Int) (h0 : 0 ≤ x) (h1 : x < 256) : u8 x = x.toNat := by
  unfold u8
  rw [Int.emod_eq_of_lt h0 h1]

-- ===================================================================
-- Claim theorems
-- ===================================================================

/-- Claim C1 (violated by the code, demonstrated at a concrete input):
`read_register`, `burst_read` and `burst_write` exit the
mutual-exclusion region exactly once per entry on every success and
failure path, for every environment; but `write_register`, run with
every GPIO operation succeeding, returns success having executed
PORT_ENTER_CRITICAL twice and PORT_EXIT_CRITICAL zero times — its
line 135 enters the critical region again where the exit was intended,
so the operation returns with the region still locked. -/
theorem c1_critical_region_balance_and_write_register_violation :
    (∀ env d reg s, (read_register env d reg s).2.2.enters = s.enters + 1 ∧
      (read_register env d reg s).2.2.exits = s.exits + 1) ∧
    (∀ env d reg len s, (burst_read env d reg len s).2.2.enters = s.enters + 1 ∧
      (burst_read env d reg len s).2.2.exits = s.exits + 1) ∧
    (∀ env d reg src len s, (burst_write env d reg src len s).2.enters = s.enters + 1 ∧
      (burst_write env d reg src len s).2.exits = s.exits + 1) ∧
    (write_register envOk dev0 WP_REG 0 st0).1 = EspErr.ESP_OK ∧
    (write_register envOk dev0 WP_REG 0 st0).2.enters = 2 ∧
    (write_register envOk dev0 WP_REG 0 st0).2.exits = 0 :=
  ⟨read_register_balanced, burst_read_balanced, burst_write_balanced,
    by decide, by decide, by decide⟩

set_option maxHeartbeats 1000000 in
/-- Claim C2: for every 24-hour time record within native ranges
(seconds 0–59, minutes 0–59, hours 0–23, day 1–31, month stored 1–12
(`tm_mon` 0–11), weekday stored 1–7 (`tm_wday` 0–6), year 2000–2099 as a
BCD offset from 2000), a successful `ds1302_set_time` followed by
`ds1302_get_time` returns the record unchanged, and the seconds byte
written carries exactly the cached clock-halt bit, so the round trip
never alters the clock-halt state. -/
theorem c2_set_time_get_time_round_trip (d : Dev) (t : Tm) (s : St) (hs : s.cmd = none)
    (h1 : 0 ≤ t.tm_sec) (h2 : t.tm_sec ≤ 59)
    (h3 : 0 ≤ t.tm_min) (h4 : t.tm_min ≤ 59)
    (h5 : 0 ≤ t.tm_hour) (h6 : t.tm_hour ≤ 23)
    (h7 : 1 ≤ t.tm_mday) (h8 : t.tm_mday ≤ 31)
    (h9 : 0 ≤ t.tm_mon) (h10 : t.tm_mon ≤ 11)
    (h11 : 0 ≤ t.tm_wday) (h12 : t.tm_wday ≤ 6)
    (h13 : 2000 ≤ t.tm_year) (h14 : t.tm_year ≤ 2099) :
    (ds1302_set_time envOk (some d) (some t) s).1 = EspErr.ESP_OK ∧
    (ds1302_get_time envOk (some d) true (ds1302_set_time envOk (some d) (some t) s).2).1 =
      EspErr.ESP_OK ∧
    (ds1302_get_time envOk (some d) true (ds1302_set_time envOk (some d) (some t) s).2).2.1 =
      some t ∧
    ((ds1302_set_time envOk (some d) (some t) s).2.chip.clock 0 &&& CH_BIT =
      if d.ch then CH_BIT else 0) := by
  have hu1 : u8 t.tm_sec = t.tm_sec.toNat := u8_small _ h1 (by omega)
  have hu2 : u8 t.tm_min = t.tm_min.toNat := u8_small _ h3 (by omega)
  have hu3 : u8 t.tm_hour = t.tm_hour.toNat := u8_small _ h5 (by omega)
  have hu4 : u8 t.tm_mday = t.tm_mday.toNat := u8_small _ (by omega) (by omega)
  have hu5 : u8 (t.tm_mon + 1) = (t.tm_mon + 1).toNat := u8_small _ (by omega) (by omega)
  have hu6 : u8 (t.tm_wday + 1) = (t.tm_wday + 1).toNat := u8_small _ (by omega) (by omega)
  have hu7 : u8 (t.tm_year - 2000) = (t.tm_year - 2000).toNat :=
    u8_small _ (by omega) (by omega)
  refine ⟨?_, ?_, ?_, ?_⟩
  · simp [ds1302_set_time, set_time_buf, burst_write, burst_write_loop, prepare, write_byte,
      chip_disable, portEnter, portExit, envOk, hs, chipWrite, CLOCK_BURST]
  · simp [ds1302_set_time, ds1302_get_time, set_time_buf, burst_write, burst_write_loop,
      burst_read, burst_read_loop, prepare, write_byte, read_byte, chip_disable, portEnter,
      portExit, envOk, hs, chipWrite, chipRead, CLOCK_BURST, RAM_BURST, DS1302_RAM_SIZE]
  · simp [ds1302_set_time, ds1302_get_time, set_time_buf, burst_write, burst_write_loop,
      burst_read, burst_read_loop, prepare, write_byte, read_byte, chip_disable, portEnter,
      portExit, envOk, hs, chipWrite, chipRead, CLOCK_BURST, RAM_BURST, DS1302_RAM_SIZE]
    rw [hu1, hu2, hu3, hu4, hu5, hu6, hu7]
    have hsec := sec_round t.tm_sec.toNat (by omega) d.ch
    have hhr := hour_enc t.tm_hour.toNat (by omega)
    ext1 <;> simp only []
    · rw [hsec.1]; omega
    · rw [plain_round _ (by omega)]; omega
    · rw [if_pos hhr.1, hhr.2]; omega
    · rw [plain_round _ (by omega)]; omega
    · rw [plain_round _ (by omega)]; omega
    · rw [plain_round _ (by omega)]; omega
    · rw [plain_round _ (by omega)]; omega
  · simp [ds1302_set_time, set_time_buf, burst_write, burst_write_loop, prepare, write_byte,
      chip_disable, portEnter, portExit, envOk, hs, chipWrite, CLOCK_BURST]
    rw [hu1]
    exact (sec_round t.tm_sec.toNat (by omega) d.ch).2

/-- Witness for C2 at a concrete record. -/
theorem c2_set_time_get_time_round_trip_witness :
    st0.cmd = none ∧
    (ds1302_get_time envOk (some dev0) true
      (ds1302_set_time envOk (some dev0) (some tW) st0).2).2.1 = some tW :=
  ⟨rfl, (c2_set_time_get_time_round_trip dev0 tW st0 rfl (by decide) (by decide) (by decide)
    (by decide) (by decide) (by decide) (by decide) (by decide) (by decide) (by decide)
    (by decide) (by decide) (by decide) (by decide)).2.2.1⟩

/-- Claim C3 counterexample: running `ds1302_get_time` on a chip whose
raw hour byte is 0x92 yields hour 11, not 23 as the claim states (in
0x92 the PM bit — bit 5 — is clear), and on raw hour byte 0x12 yields
hour 12 (BCD decode), not 18 (binary decode) as the claim states. -/
theorem c3_hour_decode_claimed_examples_false :
    hour_decoded 0x92 = 11 ∧ (11 : Int) ≠ 23 ∧
    hour_decoded 0x12 = 12 ∧ (12 : Int) ≠ 18 := by decide

/-- Claim C3 as amended: the general hour-decode rule holds exactly as
the spec words it (top bit set → BCD of the lower 5 bits, minus 1, plus
12 when bit 5 (PM) is set; otherwise 24-hour BCD of the lower 6 bits),
but the worked examples are: 0x92 (PM clear) decodes to hour 11, 0xB2
(PM set) decodes to hour 23, and 0x12 decodes as 24-hour BCD to
hour 12. -/
theorem c3_hour_decode_amended (b : Nat) (h : b < 256) :
    hour_decoded b = spec_hour_decode b ∧
    hour_decoded 0x92 = 11 ∧ hour_decoded 0xb2 = 23 ∧ hour_decoded 0x12 = 12 := by
  refine ⟨?_, by decide, by decide, by decide⟩
  simp [hour_decoded, spec_hour_decode, ds1302_get_time, burst_read, burst_read_loop,
    prepare, write_byte, read_byte, chip_disable, portEnter, portExit, envOk, st0, stHour,
    chipRead, chip0, CLOCK_BURST, RAM_BURST, DS1302_RAM_SIZE, Nat.mod_eq_of_lt h]

/-- Witness for the amended C3 at a concrete raw hour byte. -/
theorem c3_hour_decode_amended_witness :
    (0x92 : Nat) < 256 ∧ hour_decoded 0x92 = spec_hour_decode 0x92 :=
  ⟨by decide, (c3_hour_decode_amended 0x92 (by decide)).1⟩

/-- Claim C4 counterexample: at register address 0x80 the command byte
transmitted by `read_register` is 0x81 and by `write_register` is 0x80 —
they differ exactly in the least significant bit (xor 0x01), not in the
most significant bit (xor 0x80) as the claim states. -/
theorem c4_command_bytes_differ_in_msb_false :
    read_cmd_byte CH_REG = 0x81 ∧ write_cmd_byte CH_REG = 0x80 ∧
    ¬ (read_cmd_byte CH_REG ^^^ write_cmd_byte CH_REG = 0x80) ∧
    read_cmd_byte CH_REG ^^^ write_cmd_byte CH_REG = 0x01 := by decide

/-- Claim C4 as amended: the LOW bit of the command byte selects read
vs. write — for every 8-bit register address with clear low bit,
`read_register` transmits `addr | 1` and `write_register` transmits
`addr`, so the two command bytes differ exactly in the least significant
bit, the remaining bits selecting the register. -/
theorem c4_command_bytes_differ_in_lsb_amended (reg : Nat) (h1 : reg < 256)
    (h2 : reg % 2 = 0) :
    read_cmd_byte reg = reg ||| 1 ∧ write_cmd_byte reg = reg ∧
    (reg ||| 1) ^^^ reg = 1 := by
  have hf := orOne_facts ⟨reg, h1⟩ h2
  simp only [Fin.val_mk] at hf
  refine ⟨?_, ?_, hf.2.2.1⟩
  · simp [read_cmd_byte, read_register, prepare, write_byte, read_byte, chip_disable,
      portEnter, portExit, envOk, st0, hf.1]
  · simp [write_cmd_byte, write_register, prepare, write_byte, chip_disable,
      portEnter, portExit, envOk, st0, Nat.mod_eq_of_lt h1, h2]

/-- Witness for the amended C4 at a concrete register address. -/
theorem c4_command_bytes_differ_in_lsb_amended_witness :
    CH_REG < 256 ∧ read_cmd_byte CH_REG = CH_REG ||| 1 :=
  ⟨by decide, (c4_command_bytes_differ_in_lsb_amended CH_REG (by decide) (by decide)).1⟩

/-- Claim C5: for every register address (even 8-bit command), mask and
byte value, `update_register` reads the current register byte `r`,
computes `(r &&& mask) ||| val`, and writes exactly that byte back to
the same register; and the written byte agrees with `r` on every bit
position that the mask keeps (mask bit set) and the value leaves alone
(value bit clear). -/
theorem c5_update_register_masked_read_modify_write (d : Dev) (reg mask val : Nat) (s : St)
    (h1 : reg < 256) (h2 : reg % 2 = 0) (hv : val < 256) (hs : s.cmd = none) :
    (update_register envOk d reg mask val s).1 = EspErr.ESP_OK ∧
    (update_register envOk d reg mask val s).2.chip =
      chipWrite s.chip reg 0 (((chipRead s.chip (reg ||| 1) 0 % 256) &&& mask) ||| val) ∧
    (∀ i, mask.testBit i = true → val.testBit i = false →
      ((((chipRead s.chip (reg ||| 1) 0 % 256) &&& mask) ||| val).testBit i =
        (chipRead s.chip (reg ||| 1) 0 % 256).testBit i)) := by
  have hf := orOne_facts ⟨reg, h1⟩ h2
  simp only [Fin.val_mk] at hf
  have hr : chipRead s.chip (reg ||| 1) 0 % 256 < 256 := Nat.mod_lt _ (by omega)
  have hand : (chipRead s.chip (reg ||| 1) 0 % 256) &&& mask < 256 :=
    Nat.lt_of_le_of_lt Nat.and_le_left hr
  have hor : ((chipRead s.chip (reg ||| 1) 0 % 256) &&& mask) ||| val < 256 := by
    have := Nat.or_lt_two_pow (n := 8) hand hv
    simpa using this
  refine ⟨?_, ?_, ?_⟩
  · simp [update_register, read_register, write_register, prepare, write_byte, read_byte,
      chip_disable, portEnter, portExit, envOk, hs, hf.1, hf.2.1,
      Nat.mod_eq_of_lt h1, h2, Nat.mod_eq_of_lt hor]
  · simp [update_register, read_register, write_register, prepare, write_byte, read_byte,
      chip_disable, portEnter, portExit, envOk, hs, hf.1, hf.2.1,
      Nat.mod_eq_of_lt h1, h2, Nat.mod_eq_of_lt hor]
  · intro i hm hv'
    simp [Nat.testBit_or, Nat.testBit_and, hm, hv']

/-- Witness for C5 at the write-protect register. -/
theorem c5_update_register_masked_read_modify_write_witness :
    WP_REG < 256 ∧ (update_register envOk dev0 WP_REG WP_MASK WP_BIT st0).1 = EspErr.ESP_OK :=
  ⟨by decide,
    (c5_update_register_masked_read_modify_write dev0 WP_REG WP_MASK WP_BIT st0 (by decide)
      (by decide) (by decide) rfl).1⟩

/-- Claim C6 (spec-modelled capacity): for every public operation — all
nine of `ds1302_init`, `ds1302_start`, `ds1302_is_running`,
`ds1302_set_write_protect`, `ds1302_get_write_protect`,
`ds1302_get_time`, `ds1302_set_time`, `ds1302_read_sram` and
`ds1302_write_sram` — a null handle or null buffer/out-pointer (and, for
the scratch-memory operations, a zero length or `offset + len` exceeding
the scratch-memory capacity) makes the operation return
ESP_ERR_INVALID_ARG with the execution state returned exactly as given —
no critical-region entry, no bus byte, no oracle consumption, hence no
GPIO activity and no side effect — for every environment; in particular
a write at offset capacity−1 with length 2 is rejected. -/
theorem c6_invalid_args_rejected_before_bus_activity :
    (∀ env s, ds1302_init env none s = (EspErr.ESP_ERR_INVALID_ARG, none, s)) ∧
    (∀ env b s, ds1302_start env none b s = (EspErr.ESP_ERR_INVALID_ARG, none, s)) ∧
    (∀ env dev running s, (dev = none ∨ running = false) →
      ds1302_is_running env dev running s = (EspErr.ESP_ERR_INVALID_ARG, dev, false, s)) ∧
    (∀ env wp s, ds1302_set_write_protect env none wp s = (EspErr.ESP_ERR_INVALID_ARG, s)) ∧
    (∀ env dev wpGiven s, (dev = none ∨ wpGiven = false) →
      ds1302_get_write_protect env dev wpGiven s = (EspErr.ESP_ERR_INVALID_ARG, false, s)) ∧
    (∀ env dev timeGiven s, (dev = none ∨ timeGiven = false) →
      ds1302_get_time env dev timeGiven s = (EspErr.ESP_ERR_INVALID_ARG, none, s)) ∧
    (∀ env dev time s, (dev = none ∨ time = none) →
      ds1302_set_time env dev time s = (EspErr.ESP_ERR_INVALID_ARG, s)) ∧
    (∀ env dev offset bufGiven len s,
      (dev = none ∨ bufGiven = false ∨ len = 0 ∨ ¬ (offset + len ≤ DS1302_RAM_SIZE)) →
      ds1302_read_sram env dev offset bufGiven len s = (EspErr.ESP_ERR_INVALID_ARG, [], s)) ∧
    (∀ env dev offset buf len s,
      (dev = none ∨ buf = none ∨ len = 0 ∨ ¬ (offset + len ≤ DS1302_RAM_SIZE)) →
      ds1302_write_sram env dev offset buf len s = (EspErr.ESP_ERR_INVALID_ARG, s)) ∧
    (∀ env dev buf len s, len = 2 →
      ds1302_write_sram env dev (DS1302_RAM_SIZE - 1) buf len s =
        (EspErr.ESP_ERR_INVALID_ARG, s)) := by
  refine ⟨fun env s => rfl, fun env b s => rfl, ?_, fun env wp s => rfl, ?_, ?_, ?_,
    ?_, ?_, ?_⟩
  · rintro env dev running s (rfl | rfl)
    · rfl
    · cases dev <;> simp [ds1302_is_running]
  · rintro env dev wpGiven s (rfl | rfl)
    · rfl
    · cases dev <;> simp [ds1302_get_write_protect]
  · rintro env dev timeGiven s (rfl | rfl)
    · rfl
    · cases dev <;> simp [ds1302_get_time]
  · rintro env dev time s (rfl | rfl)
    · rfl
    · cases dev <;> [rfl; simp [ds1302_set_time]]
  · rintro env dev offset bufGiven len s (rfl | h | rfl | h)
    · rfl
    · cases dev <;> simp [ds1302_read_sram, h]
    · cases dev <;> simp [ds1302_read_sram]
    · cases dev <;> simp [ds1302_read_sram, h]
  · rintro env dev offset buf len s (rfl | rfl | rfl | h)
    · rfl
    · cases dev <;> simp [ds1302_write_sram]
    · cases dev <;> [rfl; (cases buf <;> simp [ds1302_write_sram])]
    · cases dev <;> [rfl; (cases buf <;> simp [ds1302_write_sram, h])]
  · rintro env dev buf len s rfl
    cases dev <;> [rfl; (cases buf <;> simp [ds1302_write_sram, DS1302_RAM_SIZE])]

/-- Witness for C6: the claim's own instance, offset = capacity − 1 and
length 2, plus a null-handle instance of a clock operation. -/
theorem c6_invalid_args_rejected_before_bus_activity_witness :
    (2 : Nat) = 2 ∧
    ds1302_write_sram envOk (some dev0) (DS1302_RAM_SIZE - 1) (some [1, 2]) 2 st0 =
      (EspErr.ESP_ERR_INVALID_ARG, st0) ∧
    ds1302_get_time envOk none true st0 = (EspErr.ESP_ERR_INVALID_ARG, none, st0) :=
  ⟨rfl,
    c6_invalid_args_rejected_before_bus_activity.2.2.2.2.2.2.2.2.2 envOk (some dev0)
      (some [1, 2]) 2 st0 rfl,
    c6_invalid_args_rejected_before_bus_activity.2.2.2.2.2.1 envOk none true st0
      (Or.inl rfl)⟩

/-- Claim C7: decoding the BCD encoding of any decimal value 0–99 gives
the value back. -/
theorem c7_bcd_decode_encode_round_trip (d : Nat) (h : d ≤ 99) :
    bcd2dec (dec2bcd d) = d := by
  have hlt : dec2bcd d < 256 := by
    unfold dec2bcd
    exact Nat.mod_lt _ (by omega)
  have h2 := plain_round d h
  rwa [Nat.mod_eq_of_lt hlt] at h2

/-- Witness for C7 at a concrete value. -/
theorem c7_bcd_decode_encode_round_trip_witness :
    (42 : Nat) ≤ 99 ∧ bcd2dec (dec2bcd 42) = 42 :=
  ⟨by decide, c7_bcd_decode_encode_round_trip 42 (by decide)⟩

/-- Claim C8: the cached clock-halt flag always reflects the most
recently observed or commanded chip state — after a successful
`ds1302_start b` the cached flag is `!b`; after a successful
`ds1302_is_running` the cached flag equals the clock-halt bit just read
from the seconds register (and the reported running value is its
negation); and `ds1302_init` initializes the cache from that same query
of the running state. -/
theorem c8_cached_clock_halt_flag_tracks_chip :
    (∀ (d : Dev) (b : Bool) (s : St), s.cmd = none →
      (ds1302_start envOk (some d) b s).1 = EspErr.ESP_OK ∧
      (ds1302_start envOk (some d) b s).2.1 = some { d with ch := !b }) ∧
    (∀ (d : Dev) (s : St), s.cmd = none →
      (ds1302_is_running envOk (some d) true s).1 = EspErr.ESP_OK ∧
      (ds1302_is_running envOk (some d) true s).2.1 =
        some { d with ch := !(chipRead s.chip (CH_REG ||| 1) 0 % 256 &&& CH_BIT == 0) } ∧
      (ds1302_is_running envOk (some d) true s).2.2.1 =
        (chipRead s.chip (CH_REG ||| 1) 0 % 256 &&& CH_BIT == 0)) ∧
    (∀ (d : Dev) (s : St), s.cmd = none →
      (ds1302_init envOk (some d) s).1 = EspErr.ESP_OK ∧
      (ds1302_init envOk (some d) s).2.1 =
        some { d with ch := !(chipRead s.chip (CH_REG ||| 1) 0 % 256 &&& CH_BIT == 0) }) := by
  refine ⟨?_, ?_, ?_⟩
  · intro d b s hs
    constructor <;>
      simp [ds1302_start, update_register, read_register, write_register, prepare, write_byte,
        read_byte, chip_disable, portEnter, portExit, envOk, hs, CH_REG, CH_MASK, CH_BIT]
  · intro d s hs
    refine ⟨?_, ?_, ?_⟩ <;>
      simp [ds1302_is_running, read_register, prepare, write_byte, read_byte, chip_disable,
        portEnter, portExit, envOk, hs, CH_REG, CH_BIT]
  · intro d s hs
    constructor <;>
      simp [ds1302_init, gpio_config, ds1302_is_running, read_register, prepare, write_byte,
        read_byte, chip_disable, portEnter, portExit, envOk, hs, CH_REG, CH_BIT]

/-- Witness for C8 at a concrete device and state. -/
theorem c8_cached_clock_halt_flag_tracks_chip_witness :
    st0.cmd = none ∧ (ds1302_start envOk (some dev0) true st0).2.1 =
      some { dev0 with ch := !true } :=
  ⟨rfl, (c8_cached_clock_halt_flag_tracks_chip.1 dev0 true st0 rfl).2⟩

/-- Claim C9: for any two offsets that both pass the bounds check, the
scratch-memory operations perform the identical transaction — result,
transferred bytes and final state are equal, because the offset is used
only in the bounds check. -/
theorem c9_sram_transfer_independent_of_offset (env : Nat → Bool) (dev : Option Dev)
    (o1 o2 : Nat) (bufGiven : Bool) (bufW : Option (List Nat)) (len : Nat) (s : St)
    (h1 : o1 + len ≤ DS1302_RAM_SIZE) (h2 : o2 + len ≤ DS1302_RAM_SIZE) :
    ds1302_read_sram env dev o1 bufGiven len s = ds1302_read_sram env dev o2 bufGiven len s ∧
    ds1302_write_sram env dev o1 bufW len s = ds1302_write_sram env dev o2 bufW len s := by
  constructor
  · cases dev <;> simp [ds1302_read_sram, h1, h2]
  · cases dev <;> [rfl; (cases bufW <;> simp [ds1302_write_sram, h1, h2])]

/-- Witness for C9 at two concrete in-bounds offsets. -/
theorem c9_sram_transfer_independent_of_offset_witness :
    0 + 5 ≤ DS1302_RAM_SIZE ∧
    ds1302_read_sram envOk (some dev0) 0 true 5 st0 =
      ds1302_read_sram envOk (some dev0) 3 true 5 st0 :=
  ⟨by decide, (c9_sram_transfer_independent_of_offset envOk (some dev0) 0 3 true
    (some [1]) 5 st0 (by decide) (by decide)).1⟩

/-- Claim C10: every successful `ds1302_set_time` transmits the
clock-burst command followed by exactly eight data bytes whose eighth is
the literal 0; that byte lands in clock-block index 7 — the chip's
write-protect/control register — so after any successful `set_time` the
write-protect register is 0 and its write-protect bit is clear,
regardless of its prior value. -/
theorem c10_set_time_writes_eight_bytes_clearing_write_protect (d : Dev) (t : Tm) (s : St)
    (hs : s.cmd = none) :
    (ds1302_set_time envOk (some d) (some t) s).1 = EspErr.ESP_OK ∧
    (ds1302_set_time envOk (some d) (some t) s).2.sent =
      s.sent ++ (CLOCK_BURST :: set_time_buf d t).map (fun b => b % 256) ∧
    (set_time_buf d t).length = 8 ∧
    (set_time_buf d t).getD 7 0 = 0 ∧
    (ds1302_set_time envOk (some d) (some t) s).2.chip.clock 7 = 0 ∧
    chipRead (ds1302_set_time envOk (some d) (some t) s).2.chip (WP_REG ||| 1) 0 &&&
      WP_BIT = 0 := by
  refine ⟨?_, ?_, by simp [set_time_buf], by simp [set_time_buf], ?_, ?_⟩ <;>
    simp [ds1302_set_time, set_time_buf, burst_write, burst_write_loop, prepare, write_byte,
      chip_disable, portEnter, portExit, envOk, hs, chipWrite, chipRead,
      CLOCK_BURST, RAM_BURST, WP_REG, WP_BIT, DS1302_RAM_SIZE]

/-- Witness for C10 at a concrete record and state. -/
theorem c10_set_time_writes_eight_bytes_clearing_write_protect_witness :
    st0.cmd = none ∧ (ds1302_set_time envOk (some dev0) (some tW) st0).2.chip.clock 7 = 0 :=
  ⟨rfl, (c10_set_time_writes_eight_bytes_clearing_write_protect dev0 tW st0 rfl).2.2.2.2.1⟩
